import Mathlib

/-!
Verification of `src/data/books/download_books.py` (repository `gallanoe/hearth`).

The script downloads a fixed list of ten Project Gutenberg books and saves
each one as a local UTF-8 text file.  We give a shallow embedding: the
external world (network responses, the UTF-8 decoder, filesystem write
permissions) is an `Env` of response functions, and the observable state of a
run (files on disk, console lines printed, HTTP requests issued) is a record
`St` threaded explicitly through the embedded functions.  Python exceptions
are values of an inductive type `Exc`; a function that can raise returns its
partially-updated state together with an `Except Exc` result.
-/

namespace DownloadBooks

/-- The Python exceptions that can arise in the script.  `urlError` covers
`urllib.error.URLError` (unreachable host etc.), `httpError` covers
`urllib.error.HTTPError` (non-success HTTP status), `unicodeDecodeError`
covers a failing `bytes.decode("utf-8")`, and `osError` covers filesystem
open/write failures.  `keyboardInterrupt` and `systemExit` model
`KeyboardInterrupt` and `SystemExit`, which derive from `BaseException` but
not from `Exception`. -/
inductive Exc where
  | urlError (msg : String)
  | httpError (code : Nat) (msg : String)
  | unicodeDecodeError (msg : String)
  | osError (msg : String)
  | keyboardInterrupt
  | systemExit (code : Nat)
deriving DecidableEq, Repr

/-- Whether the exception is an instance of the Python `Exception` class, i.e.
whether `except Exception as e` catches it.  `KeyboardInterrupt` and
`SystemExit` derive only from `BaseException`. -/
def Exc.isException : Exc → Bool
  | .keyboardInterrupt => false
  | .systemExit _ => false
  | _ => true

/-- `str(e)`: the message interpolated into `f"Failed to download {filename}: {e}"`. -/
def Exc.msg : Exc → String
  | .urlError m => m
  | .httpError _ m => m
  | .unicodeDecodeError m => m
  | .osError m => m
  | .keyboardInterrupt => "KeyboardInterrupt"
  | .systemExit c => toString c

/-- An HTTP request as built by `urllib.request.Request(url, headers=...)`. -/
structure Request where
  url : String
  headers : List (String × String)
deriving DecidableEq, Repr

/-- The external world a run interacts with.

* `scriptDir` models `Path(__file__).parent`: the directory containing the
  running script (line 22, `OUTPUT_DIR = Path(__file__).parent`).
* `net url` models `urllib.request.urlopen(request)` followed by
  `response.read()`: either the full response body (a byte list) or the
  exception raised (network error, or `HTTPError` on non-success status).
* `decode body` models `body.decode("utf-8")`: the decoded string or a
  `UnicodeDecodeError`.
* `openResult path` models `open(path, "w", encoding="utf-8")`: `none` means
  the open succeeds (creating or truncating the file), `some e` the raised
  exception.
* `writeResult path` models `f.write(content)`: `none` means the write
  succeeds, `some e` the raised exception (leaving the truncated file). -/
structure Env where
  scriptDir : String
  net : String → Except Exc (List Nat)
  decode : List Nat → Except Exc String
  openResult : String → Option Exc
  writeResult : String → Option Exc

/-- The filesystem: a map from path to file content (`none` = no such file). -/
def FS : Type := String → Option String

/-- Write content `c` at path `p`, leaving every other path unchanged. -/
def FS.set (fs : FS) (p c : String) : FS := fun q => if q = p then some c else fs q

/-- Observable state of a run: the filesystem, the console lines printed so
far (in order), and the HTTP requests issued so far (in order). -/
structure St where
  fs : FS
  out : List String
  requests : List Request

/-- The static table `BOOKS` (lines 8–19): ten (Gutenberg ID, filename) pairs. -/
def BOOKS : List (Nat × String) :=
  [ (1342, "pride-and-prejudice"),
    (2701, "moby-dick"),
    (84, "frankenstein"),
    (76, "adventures-of-huckleberry-finn"),
    (1661, "adventures-of-sherlock-holmes"),
    (1400, "great-expectations"),
    (2600, "war-and-peace"),
    (2554, "crime-and-punishment"),
    (219, "heart-of-darkness"),
    (829, "gullivers-travels") ]

/-- Line 27: `url = f"https://www.gutenberg.org/cache/epub/{book_id}/pg{book_id}.txt"`. -/
def gutenbergUrl (book_id : Nat) : String :=
  "https://www.gutenberg.org/cache/epub/" ++ toString book_id ++ "/pg"
    ++ toString book_id ++ ".txt"

/-- Lines 30–33: the request object, with its `User-Agent` header. -/
def mkRequest (book_id : Nat) : Request :=
  { url := gutenbergUrl book_id
    headers := [("User-Agent", "Python-urllib/3.x")] }

/-- Line 22: `OUTPUT_DIR = Path(__file__).parent` — the directory containing
the script. -/
def OUTPUT_DIR (env : Env) : String := env.scriptDir

/-- Line 40: `output_path = OUTPUT_DIR / f"{filename}.txt"`. -/
def outputPath (env : Env) (filename : String) : String :=
  OUTPUT_DIR env ++ "/" ++ filename ++ ".txt"

/-- Lines 25–45, `download_gutenberg_book(book_id, filename)`:
issue one GET to the templated URL; read and UTF-8-decode the body; open
`<OUTPUT_DIR>/<filename>.txt` for writing (creating or truncating it); write
the decoded text; print the success line; return the output path.  Returns
the updated state together with the result: `.ok output_path` on success,
`.error e` when the corresponding Python call raises (the state keeps every
effect performed before the raise). -/
def download_gutenberg_book (env : Env) (st : St) (book_id : Nat) (filename : String) :
    St × Except Exc String :=
  match env.net (gutenbergUrl book_id) with
  | .error e =>
      ({ st with requests := st.requests ++ [mkRequest book_id] }, .error e)
  | .ok body =>
    match env.decode body with
    | .error e =>
        ({ st with requests := st.requests ++ [mkRequest book_id] }, .error e)
    | .ok content =>
      match env.openResult (outputPath env filename) with
      | some e =>
          ({ st with requests := st.requests ++ [mkRequest book_id] }, .error e)
      | none =>
        match env.writeResult (outputPath env filename) with
        | some e =>
            ({ st with
                fs := st.fs.set (outputPath env filename) ""
                requests := st.requests ++ [mkRequest book_id] }, .error e)
        | none =>
          ({ st with
              fs := (st.fs.set (outputPath env filename) "").set
                (outputPath env filename) content
              out := st.out ++ ["Downloaded: " ++ filename ++ ".txt"]
              requests := st.requests ++ [mkRequest book_id] },
            .ok (outputPath env filename))

/-- The result `download_gutenberg_book` produces for one item; it depends
only on the environment, not on the state the call starts from. -/
def fetchResult (env : Env) (book_id : Nat) (filename : String) : Except Exc String :=
  match env.net (gutenbergUrl book_id) with
  | .error e => .error e
  | .ok body =>
    match env.decode body with
    | .error e => .error e
    | .ok _ =>
      match env.openResult (outputPath env filename) with
      | some e => .error e
      | none =>
        match env.writeResult (outputPath env filename) with
        | some e => .error e
        | none => .ok (outputPath env filename)

/-- `true` when the item either succeeds or fails with an exception the
per-item `except Exception` clause catches. -/
def ordinaryOutcome (env : Env) (p : Nat × String) : Bool :=
  match fetchResult env p.1 p.2 with
  | .ok _ => true
  | .error e => e.isException

/-- The failure record observed at the per-item boundary: the identifying
name of the item together with the underlying cause. -/
structure FetchFailure where
  name : String
  cause : Exc
deriving DecidableEq, Repr

/-- Line 54: the console line a `FetchFailure` produces,
`f"Failed to download {filename}: {e}"`. -/
def FetchFailure.line (x : FetchFailure) : String :=
  "Failed to download " ++ x.name ++ ": " ++ x.cause.msg

/-- Lines 48–54, `download_all_books`, generalized over the work-item list:
for each item in order, call `download_gutenberg_book`; catch any raised
`Exception` and print the failure line; an exception not derived from
`Exception` propagates (second component `some e`) and stops the loop. -/
def download_all_books_from (env : Env) : St → List (Nat × String) → St × Option Exc
  | st, [] => (st, none)
  | st, (book_id, filename) :: rest =>
    match download_gutenberg_book env st book_id filename with
    | (st1, .ok _) => download_all_books_from env st1 rest
    | (st1, .error e) =>
      if e.isException then
        download_all_books_from env
          { st1 with
              out := st1.out ++ [FetchFailure.line ⟨filename, e⟩] } rest
      else (st1, some e)

/-- `download_all_books()` as called by the script: the loop over `BOOKS`. -/
def download_all_books (env : Env) (st : St) : St × Option Exc :=
  download_all_books_from env st BOOKS

/-- Lines 57–61, the `__main__` block: two summary lines, the batch,
then the terminal `Done` line (reached unless the batch propagated an
exception). -/
def mainProgram (env : Env) (st : St) : St × Option Exc :=
  match download_all_books env
      { st with
        out := st.out ++
          ["Downloading " ++ toString BOOKS.length
              ++ " classic books from Project Gutenberg...",
            "Saving to: " ++ OUTPUT_DIR env ++ "\n"] } with
  | (st2, none) => ({ st2 with out := st2.out ++ ["\nDone!"] }, none)
  | (st2, some e) => (st2, some e)

/-- The console line one item contributes: the success line on success, the
failure line (naming the item and the cause) on an ordinary failure. -/
def itemLine (env : Env) (p : Nat × String) : String :=
  match fetchResult env p.1 p.2 with
  | .ok _ => "Downloaded: " ++ p.2 ++ ".txt"
  | .error e => FetchFailure.line ⟨p.2, e⟩

/-- The per-item console lines of a whole batch, in list order. -/
def itemLines (env : Env) (books : List (Nat × String)) : List String :=
  books.map (itemLine env)

/-- The HTTP requests a batch run issues, in order: one per item attempted;
an item whose exception is not caught ends the list. -/
def runTrace (env : Env) : List (Nat × String) → List Request
  | [] => []
  | (book_id, filename) :: rest =>
    match fetchResult env book_id filename with
    | .ok _ => mkRequest book_id :: runTrace env rest
    | .error e =>
      if e.isException then mkRequest book_id :: runTrace env rest
      else [mkRequest book_id]

/-! ### Concrete fixtures used to evaluate the theorems on closed inputs -/

/-- The empty starting state: no files, no console output, no requests yet. -/
def st0 : St := { fs := fun _ => none, out := [], requests := [] }

/-- A world in which every request succeeds and every body decodes to
`"Chapter 1..."`, with the script sitting in `data/books`. -/
def envOk : Env :=
  { scriptDir := "data/books"
    net := fun _ => .ok [67, 104]
    decode := fun _ => .ok "Chapter 1..."
    openResult := fun _ => none
    writeResult := fun _ => none }

/-- A world in which only the host for book 84 is unreachable. -/
def envOneFail : Env :=
  { scriptDir := "data/books"
    net := fun u => if u = gutenbergUrl 84 then .error (.urlError "unreachable") else .ok [72]
    decode := fun _ => .ok "Hi"
    openResult := fun _ => none
    writeResult := fun _ => none }

/-- A world in which every body fails to decode as UTF-8. -/
def envDecodeFail : Env :=
  { scriptDir := "data/books"
    net := fun _ => .ok [255]
    decode := fun _ => .error (.unicodeDecodeError "invalid start byte")
    openResult := fun _ => none
    writeResult := fun _ => none }

/-- A world in which every host is unreachable. -/
def envDown : Env :=
  { scriptDir := "data/books"
    net := fun _ => .error (.urlError "unreachable")
    decode := fun _ => .ok ""
    openResult := fun _ => none
    writeResult := fun _ => none }

/-- A world in which `KeyboardInterrupt` is raised during the first
blocking network call. -/
def envInterrupt : Env :=
  { scriptDir := "data/books"
    net := fun _ => .error .keyboardInterrupt
    decode := fun _ => .ok ""
    openResult := fun _ => none
    writeResult := fun _ => none }

/-- A starting state in which an output file from an earlier run already
exists. -/
def stPrev : St :=
  { fs := fun q => if q = "data/books/moby-dick.txt" then some "old content" else none
    out := []
    requests := [] }

/-! ### Characterization of one `download_gutenberg_book` call -/

lemma download_snd (env : Env) (st : St) (book_id : Nat) (filename : String) :
    (download_gutenberg_book env st book_id filename).2
      = fetchResult env book_id filename := by
  rcases hn : env.net (gutenbergUrl book_id) with e | body
  · simp [download_gutenberg_book, fetchResult, hn]
  · rcases hd : env.decode body with e | content
    · simp [download_gutenberg_book, fetchResult, hn, hd]
    · rcases ho : env.openResult (outputPath env filename) with _ | e
      · rcases hw : env.writeResult (outputPath env filename) with _ | e
        · simp [download_gutenberg_book, fetchResult, hn, hd, ho, hw]
        · simp [download_gutenberg_book, fetchResult, hn, hd, ho, hw]
      · simp [download_gutenberg_book, fetchResult, hn, hd, ho]

lemma download_requests (env : Env) (st : St) (book_id : Nat) (filename : String) :
    (download_gutenberg_book env st book_id filename).1.requests
      = st.requests ++ [mkRequest book_id] := by
  rcases hn : env.net (gutenbergUrl book_id) with e | body
  · simp [download_gutenberg_book, hn]
  · rcases hd : env.decode body with e | content
    · simp [download_gutenberg_book, hn, hd]
    · rcases ho : env.openResult (outputPath env filename) with _ | e
      · rcases hw : env.writeResult (outputPath env filename) with _ | e
        · simp [download_gutenberg_book, hn, hd, ho, hw]
        · simp [download_gutenberg_book, hn, hd, ho, hw]
      · simp [download_gutenberg_book, hn, hd, ho]

lemma download_out_ok (env : Env) (st : St) (book_id : Nat) (filename : String)
    (p : String) (h : fetchResult env book_id filename = .ok p) :
    (download_gutenberg_book env st book_id filename).1.out
      = st.out ++ ["Downloaded: " ++ filename ++ ".txt"] := by
  rcases hn : env.net (gutenbergUrl book_id) with e | body
  · simp [fetchResult, hn] at h
  · rcases hd : env.decode body with e | content
    · simp [fetchResult, hn, hd] at h
    · rcases ho : env.openResult (outputPath env filename) with _ | e
      · rcases hw : env.writeResult (outputPath env filename) with _ | e
        · simp [download_gutenberg_book, hn, hd, ho, hw]
        · simp [fetchResult, hn, hd, ho, hw] at h
      · simp [fetchResult, hn, hd, ho] at h

lemma download_out_err (env : Env) (st : St) (book_id : Nat) (filename : String)
    (e : Exc) (h : fetchResult env book_id filename = .error e) :
    (download_gutenberg_book env st book_id filename).1.out = st.out := by
  rcases hn : env.net (gutenbergUrl book_id) with e' | body
  · simp [download_gutenberg_book, hn]
  · rcases hd : env.decode body with e' | content
    · simp [download_gutenberg_book, hn, hd]
    · rcases ho : env.openResult (outputPath env filename) with _ | e'
      · rcases hw : env.writeResult (outputPath env filename) with _ | e'
        · simp [fetchResult, hn, hd, ho, hw] at h
        · simp [download_gutenberg_book, hn, hd, ho, hw]
      · simp [download_gutenberg_book, hn, hd, ho]

lemma download_fs_frame (env : Env) (st : St) (book_id : Nat) (filename : String)
    (q : String) (hq : q ≠ outputPath env filename) :
    (download_gutenberg_book env st book_id filename).1.fs q = st.fs q := by
  rcases hn : env.net (gutenbergUrl book_id) with e | body
  · simp [download_gutenberg_book, hn]
  · rcases hd : env.decode body with e | content
    · simp [download_gutenberg_book, hn, hd]
    · rcases ho : env.openResult (outputPath env filename) with _ | e
      · rcases hw : env.writeResult (outputPath env filename) with _ | e
        · simp [download_gutenberg_book, hn, hd, ho, hw, FS.set, hq]
        · simp [download_gutenberg_book, hn, hd, ho, hw, FS.set, hq]
      · simp [download_gutenberg_book, hn, hd, ho]

lemma download_fs_early_err (env : Env) (st : St) (book_id : Nat) (filename : String)
    (h : (∃ e, env.net (gutenbergUrl book_id) = .error e) ∨
      (∃ body e, env.net (gutenbergUrl book_id) = .ok body ∧ env.decode body = .error e) ∨
      (∃ e, env.openResult (outputPath env filename) = some e)) :
    (download_gutenberg_book env st book_id filename).1.fs = st.fs := by
  rcases hn : env.net (gutenbergUrl book_id) with e | body
  · simp [download_gutenberg_book, hn]
  · rcases hd : env.decode body with e | content
    · simp [download_gutenberg_book, hn, hd]
    · rcases ho : env.openResult (outputPath env filename) with _ | e
      · exfalso
        rcases h with ⟨e, he⟩ | ⟨body', e, hb, he⟩ | ⟨e, he⟩
        · rw [hn] at he; exact absurd he (by simp)
        · rw [hn] at hb
          obtain rfl : body = body' := by simpa using hb
          rw [hd] at he; exact absurd he (by simp)
        · rw [ho] at he; exact absurd he (by simp)
      · simp [download_gutenberg_book, hn, hd, ho]

lemma fetchResult_ok (env : Env) (book_id : Nat) (filename : String) (p : String)
    (h : fetchResult env book_id filename = .ok p) :
    p = outputPath env filename ∧
    ∃ body content, env.net (gutenbergUrl book_id) = .ok body ∧
      env.decode body = .ok content ∧
      env.openResult (outputPath env filename) = none ∧
      env.writeResult (outputPath env filename) = none := by
  rcases hn : env.net (gutenbergUrl book_id) with e | body
  · simp [fetchResult, hn] at h
  · rcases hd : env.decode body with e | content
    · simp [fetchResult, hn, hd] at h
    · rcases ho : env.openResult (outputPath env filename) with _ | e
      · rcases hw : env.writeResult (outputPath env filename) with _ | e
        · simp [fetchResult, hn, hd, ho, hw] at h
          exact ⟨h.symm, body, content, rfl, hd, rfl, rfl⟩
        · simp [fetchResult, hn, hd, ho, hw] at h
      · simp [fetchResult, hn, hd, ho] at h

/-! ### Characterization of the batch loop -/

lemma batch_requests_trace (env : Env) (books : List (Nat × String)) :
    ∀ st : St, (download_all_books_from env st books).1.requests
      = st.requests ++ runTrace env books := by
  induction books with
  | nil => intro st; simp [download_all_books_from, runTrace]
  | cons p rest ih =>
    obtain ⟨book_id, filename⟩ := p
    intro st
    have hreq := download_requests env st book_id filename
    have hsnd := download_snd env st book_id filename
    rcases hd : download_gutenberg_book env st book_id filename with ⟨st1, r⟩
    rw [hd] at hreq hsnd
    dsimp only at hreq hsnd
    cases r with
    | ok q =>
      have hf : fetchResult env book_id filename = .ok q := hsnd.symm
      simp only [download_all_books_from, hd]
      rw [ih st1, hreq]
      simp [runTrace, hf]
    | error e =>
      have hf : fetchResult env book_id filename = .error e := hsnd.symm
      cases he : e.isException with
      | true =>
        simp only [download_all_books_from, hd, he, if_true]
        rw [ih _]
        simp [hreq, runTrace, hf, he]
      | false =>
        simp only [download_all_books_from, hd, he, if_false]
        simp [hreq, runTrace, hf, he]

lemma batch_no_raise (env : Env) (books : List (Nat × String))
    (h : ∀ p ∈ books, ordinaryOutcome env p = true) :
    ∀ st : St, (download_all_books_from env st books).2 = none := by
  induction books with
  | nil => intro st; simp [download_all_books_from]
  | cons p rest ih =>
    obtain ⟨book_id, filename⟩ := p
    intro st
    have hhead := h _ (List.mem_cons_self _ _)
    have htail : ∀ p ∈ rest, ordinaryOutcome env p = true :=
      fun q hq => h q (List.mem_cons_of_mem _ hq)
    have hsnd := download_snd env st book_id filename
    rcases hd : download_gutenberg_book env st book_id filename with ⟨st1, r⟩
    rw [hd] at hsnd
    dsimp only at hsnd
    cases r with
    | ok q =>
      simp only [download_all_books_from, hd]
      exact ih htail st1
    | error e =>
      have hf : fetchResult env book_id filename = .error e := hsnd.symm
      have he : e.isException = true := by
        simpa [ordinaryOutcome, hf] using hhead
      simp only [download_all_books_from, hd, he, if_true]
      exact ih htail _

lemma batch_out (env : Env) (books : List (Nat × String))
    (h : ∀ p ∈ books, ordinaryOutcome env p = true) :
    ∀ st : St, (download_all_books_from env st books).1.out
      = st.out ++ itemLines env books := by
  induction books with
  | nil => intro st; simp [download_all_books_from, itemLines]
  | cons p rest ih =>
    obtain ⟨book_id, filename⟩ := p
    intro st
    have htail : ∀ p ∈ rest, ordinaryOutcome env p = true :=
      fun q hq => h q (List.mem_cons_of_mem _ hq)
    have hsnd := download_snd env st book_id filename
    rcases hd : download_gutenberg_book env st book_id filename with ⟨st1, r⟩
    rw [hd] at hsnd
    dsimp only at hsnd
    cases r with
    | ok q =>
      have hf : fetchResult env book_id filename = .ok q := hsnd.symm
      have hout : st1.out = st.out ++ ["Downloaded: " ++ filename ++ ".txt"] := by
        have := download_out_ok env st book_id filename q hf
        rw [hd] at this; exact this
      simp only [download_all_books_from, hd]
      rw [ih htail st1, hout]
      simp [itemLines, itemLine, hf]
    | error e =>
      have hf : fetchResult env book_id filename = .error e := hsnd.symm
      have he : e.isException = true := by
        simpa [ordinaryOutcome, hf] using h _ (List.mem_cons_self _ _)
      have hout : st1.out = st.out := by
        have := download_out_err env st book_id filename e hf
        rw [hd] at this; exact this
      simp only [download_all_books_from, hd, he, if_true]
      rw [ih htail _]
      simp [hout, itemLines, itemLine, hf]

lemma runTrace_ordinary (env : Env) (books : List (Nat × String))
    (h : ∀ p ∈ books, ordinaryOutcome env p = true) :
    runTrace env books = books.map (fun p => mkRequest p.1) := by
  induction books with
  | nil => simp [runTrace]
  | cons p rest ih =>
    obtain ⟨book_id, filename⟩ := p
    have htail : ∀ p ∈ rest, ordinaryOutcome env p = true :=
      fun q hq => h q (List.mem_cons_of_mem _ hq)
    rcases hf : fetchResult env book_id filename with e | q
    · have he : e.isException = true := by
        simpa [ordinaryOutcome, hf] using h _ (List.mem_cons_self _ _)
      simp [runTrace, hf, he, ih htail]
    · simp [runTrace, hf, ih htail]

/-! ### Claims -/

/-- **C1.** `fetch_all` (`download_all_books`) never raises: for every input
list of work items and every pattern of per-item success or failure (a per-item
failure is any exception the per-item handler catches, which covers every
fetch-failure kind: network, HTTP status, decode and write errors), it invokes
`fetch_one` on every item exactly once, in list order — witnessed by the
request trace, to which each `fetch_one` call contributes exactly one entry —
catching any error an item raises and continuing, so a failure in item i never
prevents items i+1..n from being attempted. -/
theorem fetch_all_never_raises_attempts_all_in_order (env : Env) (st : St)
    (books : List (Nat × String))
    (h : ∀ p ∈ books, ordinaryOutcome env p = true) :
    (download_all_books_from env st books).2 = none ∧
    (download_all_books_from env st books).1.requests
      = st.requests ++ books.map (fun p => mkRequest p.1) := by
  refine ⟨batch_no_raise env books h st, ?_⟩
  rw [batch_requests_trace env books st, runTrace_ordinary env books h]

theorem fetch_all_never_raises_attempts_all_in_order_witness :
    (download_all_books_from envOneFail st0
        [(84, "frankenstein"), (76, "adventures-of-huckleberry-finn")]).2 = none ∧
    (download_all_books_from envOneFail st0
        [(84, "frankenstein"), (76, "adventures-of-huckleberry-finn")]).1.requests
      = st0.requests ++
          [(84, "frankenstein"), (76, "adventures-of-huckleberry-finn")].map
            (fun p => mkRequest p.1) :=
  fetch_all_never_raises_attempts_all_in_order envOneFail st0
    [(84, "frankenstein"), (76, "adventures-of-huckleberry-finn")] (by decide)

/-- **C2.** For every work item whose remote resource is reachable and returns
a UTF-8-decodable body, and whose output path is writable, `fetch_one`
(`download_gutenberg_book`) writes a file at
`<output_dir>/<output_name>.txt` — where `output_dir` is `OUTPUT_DIR`, the
directory containing the script — whose content equals the UTF-8-decoded
response body verbatim, creating or truncating that file (the starting
filesystem is arbitrary), and returns the path written to. -/
theorem fetch_one_success_writes_decoded_body (env : Env) (st : St)
    (book_id : Nat) (filename : String) (body : List Nat) (content : String)
    (hnet : env.net (gutenbergUrl book_id) = .ok body)
    (hdec : env.decode body = .ok content)
    (hopen : env.openResult (outputPath env filename) = none)
    (hwrite : env.writeResult (outputPath env filename) = none) :
    (download_gutenberg_book env st book_id filename).2
        = .ok (outputPath env filename) ∧
    (download_gutenberg_book env st book_id filename).1.fs (outputPath env filename)
        = some content ∧
    outputPath env filename = OUTPUT_DIR env ++ "/" ++ filename ++ ".txt" := by
  refine ⟨?_, ?_, rfl⟩
  · simp [download_gutenberg_book, hnet, hdec, hopen, hwrite]
  · simp [download_gutenberg_book, hnet, hdec, hopen, hwrite, FS.set]

theorem fetch_one_success_writes_decoded_body_witness :
    (download_gutenberg_book envOk st0 1342 "pride-and-prejudice").2
        = .ok (outputPath envOk "pride-and-prejudice") ∧
    (download_gutenberg_book envOk st0 1342 "pride-and-prejudice").1.fs
        (outputPath envOk "pride-and-prejudice") = some "Chapter 1..." ∧
    outputPath envOk "pride-and-prejudice"
        = OUTPUT_DIR envOk ++ "/" ++ "pride-and-prejudice" ++ ".txt" :=
  fetch_one_success_writes_decoded_body envOk st0 1342 "pride-and-prejudice"
    [67, 104] "Chapter 1..." rfl rfl rfl rfl

/-- **C3.** For every work item, any network error, non-success HTTP status,
decoding error, or filesystem write error in `fetch_one` produces a value of
the single error type `Exc` that the per-item boundary turns into exactly one
`FetchFailure` signal carrying both the identifying name of the item and the
underlying cause: processing the item appends exactly the line
`FetchFailure.line ⟨filename, e⟩` and nothing propagates further. -/
theorem fetch_failure_signals_name_and_cause (env : Env) (st : St)
    (book_id : Nat) (filename : String) (e : Exc)
    (herr : fetchResult env book_id filename = .error e)
    (hord : e.isException = true) :
    (download_all_books_from env st [(book_id, filename)]).1.out
        = st.out ++ [FetchFailure.line ⟨filename, e⟩] ∧
    (download_all_books_from env st [(book_id, filename)]).2 = none := by
  have h : ∀ p ∈ [(book_id, filename)], ordinaryOutcome env p = true := by
    intro p hp
    simp only [List.mem_singleton] at hp
    subst hp
    simp [ordinaryOutcome, herr, hord]
  refine ⟨?_, batch_no_raise env _ h st⟩
  rw [batch_out env _ h st]
  simp [itemLines, itemLine, herr]

theorem fetch_failure_signals_name_and_cause_witness :
    (download_all_books_from envDecodeFail st0 [(2701, "moby-dick")]).1.out
        = st0.out ++
            [FetchFailure.line ⟨"moby-dick", .unicodeDecodeError "invalid start byte"⟩] ∧
    (download_all_books_from envDecodeFail st0 [(2701, "moby-dick")]).2 = none :=
  fetch_failure_signals_name_and_cause envDecodeFail st0 2701 "moby-dick"
    (.unicodeDecodeError "invalid start byte") rfl rfl

/-- **C4.** For every `source_id`, `fetch_one` issues exactly one HTTP GET —
the request trace grows by exactly one entry — to the URL
`https://www.gutenberg.org/cache/epub/{id}/pg{id}.txt` with both occurrences
of `{id}` equal to `source_id`, and the request carries a client-identifying
(`User-Agent`) header. -/
theorem fetch_one_issues_single_get_with_header (env : Env) (st : St)
    (book_id : Nat) (filename : String) :
    (download_gutenberg_book env st book_id filename).1.requests
        = st.requests ++ [mkRequest book_id] ∧
    (mkRequest book_id).url
        = "https://www.gutenberg.org/cache/epub/" ++ toString book_id ++ "/pg"
            ++ toString book_id ++ ".txt" ∧
    (mkRequest book_id).headers = [("User-Agent", "Python-urllib/3.x")] :=
  ⟨download_requests env st book_id filename, rfl, rfl⟩

/-- **C5.** Re-running `fetch_all` with the same inputs is idempotent with
respect to traversal and output: the requests a run issues do not depend on
the starting state (in particular not on which output files already exist),
so a second run attempts exactly the same items; and an output file that
already exists (with arbitrary prior content `old`) is unconditionally
overwritten with the newly fetched content rather than skipped. -/
theorem fetch_all_rerun_same_attempts_overwrites (env : Env) (st st' : St)
    (books : List (Nat × String)) (book_id : Nat) (filename : String)
    (old : String) (body : List Nat) (content : String)
    (_hprev : st.fs (outputPath env filename) = some old)
    (hnet : env.net (gutenbergUrl book_id) = .ok body)
    (hdec : env.decode body = .ok content)
    (hopen : env.openResult (outputPath env filename) = none)
    (hwrite : env.writeResult (outputPath env filename) = none) :
    ((download_all_books_from env st books).1.requests).drop st.requests.length
        = ((download_all_books_from env st' books).1.requests).drop
            st'.requests.length ∧
    (download_gutenberg_book env st book_id filename).1.fs (outputPath env filename)
        = some content := by
  constructor
  · rw [batch_requests_trace env books st, batch_requests_trace env books st']
    simp [List.drop_left]
  · simp [download_gutenberg_book, hnet, hdec, hopen, hwrite, FS.set]

theorem fetch_all_rerun_same_attempts_overwrites_witness :
    ((download_all_books_from envOk stPrev [(2701, "moby-dick")]).1.requests).drop
        stPrev.requests.length
      = ((download_all_books_from envOk st0 [(2701, "moby-dick")]).1.requests).drop
          st0.requests.length ∧
    (download_gutenberg_book envOk stPrev 2701 "moby-dick").1.fs
        (outputPath envOk "moby-dick") = some "Chapter 1..." :=
  fetch_all_rerun_same_attempts_overwrites envOk stPrev st0 [(2701, "moby-dick")]
    2701 "moby-dick" "old content" [67, 104] "Chapter 1..." (by decide) rfl rfl rfl rfl

/-- **C6.** On every successful `fetch_one` call, exactly one file is written
or overwritten — the file at `<output_dir>/<output_name>.txt`, the path the
call returns — and every other file in the filesystem state is unchanged. -/
theorem fetch_one_success_frame (env : Env) (st : St) (book_id : Nat)
    (filename : String) (p : String)
    (hok : (download_gutenberg_book env st book_id filename).2 = .ok p) :
    p = outputPath env filename ∧
    (∃ c, (download_gutenberg_book env st book_id filename).1.fs p = some c) ∧
    ∀ q, q ≠ p → (download_gutenberg_book env st book_id filename).1.fs q = st.fs q := by
  have hf : fetchResult env book_id filename = .ok p := by
    rw [← download_snd env st book_id filename]; exact hok
  obtain ⟨hp, body, content, hnet, hdec, hopen, hwrite⟩ :=
    fetchResult_ok env book_id filename p hf
  subst hp
  refine ⟨rfl, ⟨content, ?_⟩, ?_⟩
  · simp [download_gutenberg_book, hnet, hdec, hopen, hwrite, FS.set]
  · intro q hq
    exact download_fs_frame env st book_id filename q hq

theorem fetch_one_success_frame_witness :
    (download_gutenberg_book envOk st0 84 "frankenstein").1.fs "unrelated.txt"
        = st0.fs "unrelated.txt" :=
  (fetch_one_success_frame envOk st0 84 "frankenstein"
      (outputPath envOk "frankenstein") rfl).2.2 "unrelated.txt" (by decide)

/-- **C7.** For every pattern of per-item outcomes in which each item either
succeeds or fails with a caught exception, the console output of the program
consists of the summary lines before the batch, then one line per item in
order — the success line for a success, and for a failure a line naming the
item and including the failure message (see `itemLine`) — and the run
always reaches the terminal `Done` message regardless of how many items
failed. -/
theorem console_output_per_item_and_done (env : Env) (st : St)
    (h : ∀ p ∈ BOOKS, ordinaryOutcome env p = true) :
    (mainProgram env st).1.out
        = st.out
          ++ ["Downloading " ++ toString BOOKS.length
                ++ " classic books from Project Gutenberg...",
              "Saving to: " ++ OUTPUT_DIR env ++ "\n"]
          ++ itemLines env BOOKS
          ++ ["\nDone!"] ∧
    (mainProgram env st).2 = none := by
  unfold mainProgram download_all_books
  rcases hd : download_all_books_from env
      { st with
        out := st.out ++
          ["Downloading " ++ toString BOOKS.length
              ++ " classic books from Project Gutenberg...",
            "Saving to: " ++ OUTPUT_DIR env ++ "\n"] } BOOKS with ⟨st2, r⟩
  have hb := batch_no_raise env BOOKS h
      { st with
        out := st.out ++
          ["Downloading " ++ toString BOOKS.length
              ++ " classic books from Project Gutenberg...",
            "Saving to: " ++ OUTPUT_DIR env ++ "\n"] }
  have hout := batch_out env BOOKS h
      { st with
        out := st.out ++
          ["Downloading " ++ toString BOOKS.length
              ++ " classic books from Project Gutenberg...",
            "Saving to: " ++ OUTPUT_DIR env ++ "\n"] }
  rw [hd] at hb hout
  dsimp only at hb hout
  subst hb
  simp only [hd]
  simp [hout, List.append_assoc]

theorem console_output_per_item_and_done_witness :
    (mainProgram envDown st0).1.out
        = st0.out
          ++ ["Downloading " ++ toString BOOKS.length
                ++ " classic books from Project Gutenberg...",
              "Saving to: " ++ OUTPUT_DIR envDown ++ "\n"]
          ++ itemLines envDown BOOKS
          ++ ["\nDone!"] ∧
    (mainProgram envDown st0).2 = none :=
  console_output_per_item_and_done envDown st0 (fun _ _ => rfl)

/-- **C8.** The work-item list `BOOKS` is a static table of exactly ten
`(source_id, output_name)` pairs — a Lean constant, hence immutable — in
which every `source_id` is a positive integer and every `output_name` is a
non-empty string, and a run of `download_all_books` consumes each item
exactly once: it issues exactly one request per item, in table order. -/
theorem books_table_static_invariants :
    BOOKS.length = 10 ∧
    (∀ p ∈ BOOKS, 0 < p.1 ∧ p.2 ≠ "") ∧
    (∀ env : Env, ∀ st : St, (∀ p ∈ BOOKS, ordinaryOutcome env p = true) →
      (download_all_books env st).1.requests
        = st.requests ++ BOOKS.map (fun p => mkRequest p.1)) := by
  refine ⟨rfl, by decide, ?_⟩
  intro env st h
  unfold download_all_books
  rw [batch_requests_trace env BOOKS st, runTrace_ordinary env BOOKS h]

theorem books_table_static_invariants_witness :
    (download_all_books envOk st0).1.requests
      = st0.requests ++ BOOKS.map (fun p => mkRequest p.1) :=
  books_table_static_invariants.2.2 envOk st0 (fun _ _ => rfl)

/-- **C9.** In `fetch_one` the full response body is read and UTF-8-decoded
before the output file is opened, so if the item fails with a network error,
a non-success HTTP status (both are `env.net` errors) or a decode error, the
filesystem is left completely unchanged; and whenever a failing call changed
the filesystem at all, the change is confined to the output path, the error
came from the write phase itself, and what is left behind is the truncated
(partial) output file. -/
theorem body_decoded_before_file_opened (env : Env) (st : St) (book_id : Nat)
    (filename : String) :
    (((∃ e, env.net (gutenbergUrl book_id) = .error e) ∨
        (∃ body e, env.net (gutenbergUrl book_id) = .ok body ∧
          env.decode body = .error e)) →
      (download_gutenberg_book env st book_id filename).1.fs = st.fs) ∧
    (∀ q e, (download_gutenberg_book env st book_id filename).2 = .error e →
      (download_gutenberg_book env st book_id filename).1.fs q ≠ st.fs q →
      q = outputPath env filename ∧
      env.writeResult (outputPath env filename) = some e ∧
      (download_gutenberg_book env st book_id filename).1.fs q = some "") := by
  constructor
  · intro h
    refine download_fs_early_err env st book_id filename ?_
    exact h.elim Or.inl (fun hb => Or.inr (Or.inl hb))
  · intro q e herr hch
    rcases hn : env.net (gutenbergUrl book_id) with e' | body
    · exact absurd
        (congrFun (download_fs_early_err env st book_id filename (Or.inl ⟨e', hn⟩)) q) hch
    · rcases hd : env.decode body with e' | content
      · exact absurd
          (congrFun (download_fs_early_err env st book_id filename
            (Or.inr (Or.inl ⟨body, e', hn, hd⟩))) q) hch
      · rcases ho : env.openResult (outputPath env filename) with _ | e'
        · rcases hw : env.writeResult (outputPath env filename) with _ | e'
          · have hf : fetchResult env book_id filename = .error e :=
              (download_snd env st book_id filename).symm.trans herr
            simp [fetchResult, hn, hd, ho, hw] at hf
          · have hf : fetchResult env book_id filename = .error e :=
              (download_snd env st book_id filename).symm.trans herr
            have he' : e' = e := by
              simpa [fetchResult, hn, hd, ho, hw] using hf
            subst he'
            have hfs : (download_gutenberg_book env st book_id filename).1.fs
                = st.fs.set (outputPath env filename) "" := by
              simp [download_gutenberg_book, hn, hd, ho, hw]
            have hq : q = outputPath env filename := by
              by_contra hne
              apply hch
              rw [hfs]
              simp [FS.set, hne]
            refine ⟨hq, rfl, ?_⟩
            rw [hfs, hq]
            simp [FS.set]
        · exact absurd
            (congrFun (download_fs_early_err env st book_id filename
              (Or.inr (Or.inr ⟨e', ho⟩))) q) hch

theorem body_decoded_before_file_opened_witness :
    (download_gutenberg_book envDown st0 1400 "great-expectations").1.fs = st0.fs :=
  (body_decoded_before_file_opened envDown st0 1400 "great-expectations").1
    (Or.inl ⟨.urlError "unreachable", rfl⟩)

/-- **C10.** The per-item catch in `fetch_all` covers only exceptions of the
ordinary `Exception` class: an exit-style interruption not derived from it
(`KeyboardInterrupt`, `SystemExit`) raised while processing item i propagates
out of `download_all_books_from` and prevents items i+1..n from being
attempted — the run issues only the one request of item i. -/
theorem base_exception_propagates (env : Env) (st : St) (book_id : Nat)
    (filename : String) (rest : List (Nat × String)) (e : Exc)
    (herr : fetchResult env book_id filename = .error e)
    (hexit : e.isException = false) :
    (download_all_books_from env st ((book_id, filename) :: rest)).2 = some e ∧
    (download_all_books_from env st ((book_id, filename) :: rest)).1.requests
      = st.requests ++ [mkRequest book_id] := by
  have hsnd := download_snd env st book_id filename
  have hreq := download_requests env st book_id filename
  rcases hd : download_gutenberg_book env st book_id filename with ⟨st1, r⟩
  rw [hd] at hsnd hreq
  dsimp only at hsnd hreq
  have hr : r = .error e := hsnd.trans herr
  subst hr
  simp only [download_all_books_from, hd, hexit, Bool.false_eq_true, if_false]
  exact ⟨trivial, hreq⟩

theorem base_exception_propagates_witness :
    (download_all_books_from envInterrupt st0
        [(1342, "pride-and-prejudice"), (2701, "moby-dick")]).2
      = some .keyboardInterrupt ∧
    (download_all_books_from envInterrupt st0
        [(1342, "pride-and-prejudice"), (2701, "moby-dick")]).1.requests
      = st0.requests ++ [mkRequest 1342] :=
  base_exception_propagates envInterrupt st0 1342 "pride-and-prejudice"
    [(2701, "moby-dick")] .keyboardInterrupt rfl rfl

end DownloadBooks
